import Mathlib

/-!
Shallow embedding of the StudyMind-AI front end (React single-page app).

Each React event handler is modelled as a pure function from its component
state (plus the environment inputs it reads: timestamps, the confirm-dialog
answer, the eventual outcome of the one HTTP call it issues) to the new
state together with the request it sent, if any.  Asynchronous handlers are
split into their synchronous prefix (everything up to the awaited call) and
the continuation applied to the call's outcome, so that intermediate states
are first-class.  JavaScript strings are Lean strings; JS numbers appearing
here are exact (file sizes are byte counts, question counts are integers),
with the floating-point steps of formatFileSize modelled exactly over the
rationals as documented at that definition.
-/

namespace StudyMind

/-- Whitespace recognised by JavaScript String.prototype.trim: the ECMA
WhiteSpace set (TAB, VT, FF, SP, NBSP, ZWNBSP and the Unicode Zs category)
together with the LineTerminator set (LF, CR, LS, PS). -/
def jsIsWhiteSpace (c : Char) : Bool :=
  c = ' ' || c = '\t' || c = '\n' || c = '\r' ||
  c.val = 0xB || c.val = 0xC || c.val = 0xA0 || c.val = 0xFEFF ||
  c.val = 0x1680 || (0x2000 ≤ c.val && c.val ≤ 0x200A) ||
  c.val = 0x2028 || c.val = 0x2029 ||
  c.val = 0x202F || c.val = 0x205F || c.val = 0x3000

/-- Model of JavaScript String.prototype.trim. -/
def jsTrim (s : String) : String :=
  String.mk (((s.data.dropWhile jsIsWhiteSpace).reverse.dropWhile
    jsIsWhiteSpace).reverse)

/-- Source citation attached to an assistant message
(Chat.jsx: response.sources entries, fields source, page, chapter). -/
structure Source where
  source : String
  page : Nat
  chapter : Option String
deriving DecidableEq

/-- Chat message (Chat.jsx handleSend): user messages carry no sources or
model key, assistant messages carry both.  Absent JS object keys are
modelled as none. -/
structure Message where
  role : String
  content : String
  sources : Option (List Source)
  model : Option String
  timestamp : String
deriving DecidableEq

/-- Body of the POST /query request built by queryDocuments in
services/api.js: fields query, chapter_filter, model_name. -/
structure QueryRequest where
  query : String
  chapter_filter : Option String
  model_name : String
deriving DecidableEq

/-- Fields of the /query response consumed by Chat.jsx:
answer, sources, model_used. -/
structure QueryResponse where
  answer : String
  sources : List Source
  model_used : String
deriving DecidableEq

/-- Local state of the Chat component: messages, input, selectedChapter
useState hooks, plus the shared isLoading flag it receives. -/
structure ChatState where
  messages : List Message
  input : String
  selectedChapter : String
  isLoading : Bool
deriving DecidableEq

/-- Result of the synchronous prefix of handleSend: the state after the
optimistic updates, and the query request about to be awaited (none when
the blank-input guard returned early). -/
structure ChatSendPre where
  state : ChatState
  request : Option QueryRequest
deriving DecidableEq

/-- Synchronous prefix of Chat.jsx handleSend: the blank-input guard
(if (!input.trim()) return), the optimistic append of the user message,
setInput(''), setIsLoading(true), and the construction of the
queryDocuments call with the "All Chapters" sentinel mapped to null.
The timestamp t1 stands for new Date().toISOString(). -/
def handleSendPre (selectedModel : String) (t1 : String) (s : ChatState) :
    ChatSendPre :=
  if jsTrim s.input = "" then { state := s, request := none }
  else
    let userMessage : Message :=
      { role := "user", content := s.input, sources := none, model := none,
        timestamp := t1 }
    { state :=
        { s with
          messages := s.messages ++ [userMessage],
          input := "",
          isLoading := true },
      request := some
        { query := s.input,
          chapter_filter :=
            if s.selectedChapter = "All Chapters" then none
            else some s.selectedChapter,
          model_name := selectedModel } }

/-- Continuation of handleSend after the awaited queryDocuments call:
on success append the assistant message built from the response; on
failure only toast (state untouched); finally setIsLoading(false). -/
def handleSendPost (outcome : Except Unit QueryResponse) (t2 : String)
    (s : ChatState) : ChatState :=
  match outcome with
  | .ok r =>
      { s with
        messages := s.messages ++
          [{ role := "assistant", content := r.answer,
             sources := some r.sources, model := some r.model_used,
             timestamp := t2 }],
        isLoading := false }
  | .error _ => { s with isLoading := false }

/-- Whole run of Chat.jsx handleSend: the synchronous prefix followed, when
a request was issued, by the continuation on the call's outcome.  Returns
the final state and the request that was sent, if any. -/
def handleSend (selectedModel t1 t2 : String)
    (outcome : Except Unit QueryResponse) (s : ChatState) :
    ChatState × Option QueryRequest :=
  let pre := handleSendPre selectedModel t1 s
  match pre.request with
  | none => (pre.state, none)
  | some req => (handleSendPost outcome t2 pre.state, some req)

/-- Keyboard event as delivered to Chat.jsx handleKeyPress: the key name
and the four modifier flags. -/
structure KeyEvent where
  key : String
  shiftKey : Bool
  ctrlKey : Bool
  altKey : Bool
  metaKey : Bool
deriving DecidableEq

/-- Chat.jsx handleKeyPress submit condition, exactly as written:
e.key === Enter together with !e.shiftKey. -/
def keyPressTriggersSend (e : KeyEvent) : Bool :=
  e.key = "Enter" && !e.shiftKey

/-- Modelled from the spec: the claimed submit condition, the key is Enter
and no modifier at all is held.  Stated for comparison with
keyPressTriggersSend, which the source defines. -/
def keyTriggersSpec (e : KeyEvent) : Bool :=
  e.key = "Enter" &&
    !(e.shiftKey || e.ctrlKey || e.altKey || e.metaKey)

/-- Metadata of an accepted file, the two fields Upload.jsx reads:
file.name and file.size (a byte count). -/
structure FileMeta where
  name : String
  size : Nat
deriving DecidableEq

/-- Document descriptor appended by Upload.jsx onDrop:
name, human-readable size string, status. -/
structure Doc where
  name : String
  size : String
  status : String
deriving DecidableEq

/-- Field of the /upload response consumed by Upload.jsx: chapters. -/
structure UploadResponse where
  chapters : List String
deriving DecidableEq

/-- Shared upload-facing state owned by App.jsx: the documents and
chapters lists and the shared loading flag. -/
structure SharedState where
  documents : List Doc
  chapters : List String
  isLoading : Bool
deriving DecidableEq

/-- Render of a JS number holding an integer multiple of one hundredth,
given as hundredths, after parseFloat of its toFixed(2) form: trailing
zeros of the two-decimal form are dropped, as Number-to-string does
(parseFloat of the string 1.00 is the number 1, printed 1). -/
def renderHundredths (h : Nat) : String :=
  let intPart := h / 100
  let frac := h % 100
  if frac = 0 then toString intPart
  else if frac % 10 = 0 then
    toString intPart ++ "." ++ toString (frac / 10)
  else if frac < 10 then
    toString intPart ++ ".0" ++ toString frac
  else
    toString intPart ++ "." ++ toString frac

/-- Upload.jsx formatFileSize.  The source computes
i = Math.floor(Math.log(bytes) / Math.log(1024)) and
parseFloat((bytes / 1024^i).toFixed(2)) in double precision; here the
index is the exact integer logarithm and the two-decimal rounding is
exact half-up rounding of the rational bytes / 1024^i, which agree with
the double-precision values at the byte counts the claims evaluate
(powers of 1024, where the log ratio and the quotient are exact).
Indexing past the sizes array yields the JS undefined, rendered as its
string form. -/
def formatFileSize (bytes : Nat) : String :=
  if bytes = 0 then "0 Bytes"
  else
    let k := 1024
    let sizes := ["Bytes", "KB", "MB", "GB"]
    let i := Nat.log k bytes
    let d := k ^ i
    renderHundredths ((200 * bytes + d) / (2 * d)) ++ " " ++
      sizes.getD i "undefined"

/-- Descriptor built for one accepted file inside Upload.jsx onDrop. -/
def docOfFile (f : FileMeta) : Doc :=
  { name := f.name, size := formatFileSize f.size, status := "processed" }

/-- Upload.jsx onDrop: early return on an empty acceptedFiles array,
otherwise one uploadPDFs call; on success append one descriptor per file
in order and replace the chapters list with result.chapters; on failure
only toast; finally setIsLoading(false).  The Bool records whether the
network call was issued. -/
def onDrop (acceptedFiles : List FileMeta)
    (outcome : Except Unit UploadResponse) (s : SharedState) :
    SharedState × Bool :=
  if acceptedFiles.length = 0 then (s, false)
  else
    match outcome with
    | .ok result =>
        ({ s with
           documents := s.documents ++ acceptedFiles.map docOfFile,
           chapters := result.chapters,
           isLoading := false }, true)
    | .error _ => ({ s with isLoading := false }, true)

/-- Sidebar.jsx handleClearAll: gated on window.confirm; on a successful
clearAllData call run the App.jsx onClear callback, which resets both
shared lists to empty; on failure only toast.  Arguments are the confirm
answer, the call outcome and the two shared lists; the result pairs the
new lists with whether the DELETE /clear call was issued. -/
def handleClearAll (confirmed : Bool) (outcome : Except Unit Unit)
    (documents : List Doc) (chapters : List String) :
    (List Doc × List String) × Bool :=
  if confirmed then
    match outcome with
    | .ok _ => (([], []), true)
    | .error _ => ((documents, chapters), true)
  else ((documents, chapters), false)

/-- Disabled condition of the Clear All Data button in Sidebar.jsx:
isLoading (the sidebar-local in-flight flag) or an empty document list. -/
def clearButtonDisabled (isLoading : Bool) (documents : List Doc) : Bool :=
  isLoading || documents.length = 0

/-- A click on the Clear All Data button: a disabled button fires no
click handler, otherwise handleClearAll runs. -/
def clickClearAll (confirmed : Bool) (outcome : Except Unit Unit)
    (isLoading : Bool) (documents : List Doc) (chapters : List String) :
    (List Doc × List String) × Bool :=
  if clearButtonDisabled isLoading documents then
    ((documents, chapters), false)
  else handleClearAll confirmed outcome documents chapters

/-- Model of JavaScript parseInt on the value strings a number input
delivers: after trimming, an optional sign followed by leading decimal
digits; none models NaN (no digits, as for the empty string). -/
def jsParseInt (s : String) : Option Int :=
  let t := (jsTrim s).data
  let signDigits : Int × List Char :=
    match t with
    | '-' :: rest => (-1, rest)
    | '+' :: rest => (1, rest)
    | cs => (1, cs)
  let ds := signDigits.2.takeWhile Char.isDigit
  if ds.isEmpty then none
  else some (signDigits.1 *
    Int.ofNat (ds.foldl (fun n c => n * 10 + (c.toNat - 48)) 0))

/-- Body of the POST /generate-quiz request built by generateQuiz in
services/api.js: chapter and num_questions (none models NaN). -/
structure QuizRequest where
  chapter : String
  num_questions : Option Int
deriving DecidableEq

/-- Fields of the /generate-quiz response consumed by Quiz.jsx:
questions and model. -/
structure QuizResponse where
  questions : String
  model : String
deriving DecidableEq

/-- Local state of the Quiz component: the selectedChapter, numQuestions
and quiz useState hooks plus the shared isLoading flag.  numQuestions is
an Option Int because the onChange handler stores parseInt of the raw
input value, which can be NaN. -/
structure QuizState where
  selectedChapter : String
  numQuestions : Option Int
  quiz : Option QuizResponse
  isLoading : Bool
deriving DecidableEq

/-- Initial Quiz component state: useState defaults, no chapter selected
and five questions. -/
def initQuizState : QuizState :=
  { selectedChapter := "", numQuestions := some 5, quiz := none,
    isLoading := false }

/-- Quiz.jsx handleGenerateQuiz: early return (toast only) when
selectedChapter is the empty string, otherwise one generateQuiz call
with the chapter and question count passed as held; on success replace
the displayed quiz; finally setIsLoading(false). -/
def handleGenerateQuiz (outcome : Except Unit QuizResponse)
    (s : QuizState) : QuizState × Option QuizRequest :=
  if s.selectedChapter = "" then (s, none)
  else
    match outcome with
    | .ok r =>
        ({ s with quiz := some r, isLoading := false },
         some { chapter := s.selectedChapter,
                num_questions := s.numQuestions })
    | .error _ =>
        ({ s with isLoading := false },
         some { chapter := s.selectedChapter,
                num_questions := s.numQuestions })

/-- Disabled condition of the Generate Quiz button in Quiz.jsx:
isLoading or no chapter selected (the empty string is falsy). -/
def generateButtonDisabled (s : QuizState) : Bool :=
  s.isLoading || s.selectedChapter = ""

/-- User interactions with the Quiz panel: choosing an option of the
chapter select, editing the question-count number input (the raw value
string the input delivers), and clicking Generate Quiz, carrying the
outcome of the request it triggers, if one is issued. -/
inductive QuizEvent where
  | selectChapter (value : String)
  | editNumQuestions (value : String)
  | clickGenerate (outcome : Except Unit QuizResponse)

/-- One Quiz panel interaction.  The select and the number input are
disabled while isLoading; the select offers the empty placeholder and the
chapters passed in, so only those values can arrive; the number input
declares min 1 and max 10 but a typed value string is delivered as-is,
and the handler stores parseInt of it without clamping; a disabled
Generate button fires no click. -/
def quizStep (chapters : List String) (s : QuizState) (e : QuizEvent) :
    QuizState × Option QuizRequest :=
  match e with
  | .selectChapter v =>
      if s.isLoading then (s, none)
      else if v = "" || chapters.contains v then
        ({ s with selectedChapter := v }, none)
      else (s, none)
  | .editNumQuestions v =>
      if s.isLoading then (s, none)
      else ({ s with numQuestions := jsParseInt v }, none)
  | .clickGenerate outcome =>
      if generateButtonDisabled s then (s, none)
      else handleGenerateQuiz outcome s

/-- Run of the Quiz panel over a list of interactions, collecting every
generate-quiz request issued, in order. -/
def quizRun (chapters : List String) (s : QuizState) :
    List QuizEvent → QuizState × List QuizRequest
  | [] => (s, [])
  | e :: es =>
      let step := quizStep chapters s e
      let rest := quizRun chapters step.1 es
      (rest.1, step.2.toList ++ rest.2)

/-- C1: for every non-empty list of accepted files, a successful upload
call appends exactly one descriptor with the file name, the formatted
size and the processed status per file, in submission order, and
replaces the shared chapter list with the chapters of the response. -/
theorem C1_upload_success (files : List FileMeta) (r : UploadResponse)
    (s : SharedState) (h : files ≠ []) :
    (onDrop files (.ok r) s).1.documents =
      s.documents ++ files.map (fun f =>
        { name := f.name, size := formatFileSize f.size,
          status := "processed" }) ∧
    (onDrop files (.ok r) s).1.chapters = r.chapters := by
  have hlen : files.length ≠ 0 := by simpa using h
  simp [onDrop, docOfFile, hlen]

/-- Witness for C1 at one concrete file and response. -/
theorem C1_upload_success_witness :
    ([({ name := "notes.pdf", size := 1048576 } : FileMeta)] ≠ []) ∧
    ((onDrop [{ name := "notes.pdf", size := 1048576 }]
        (.ok { chapters := ["Chapter 1"] })
        { documents := [], chapters := [], isLoading := true }).1.documents =
      [] ++ ([{ name := "notes.pdf", size := 1048576 }] :
          List FileMeta).map (fun f =>
        ({ name := f.name, size := formatFileSize f.size,
           status := "processed" } : Doc)) ∧
    (onDrop [{ name := "notes.pdf", size := 1048576 }]
        (.ok { chapters := ["Chapter 1"] })
        { documents := [], chapters := [], isLoading := true }).1.chapters =
      ["Chapter 1"]) :=
  ⟨by decide,
   C1_upload_success [{ name := "notes.pdf", size := 1048576 }]
     { chapters := ["Chapter 1"] }
     { documents := [], chapters := [], isLoading := true } (by decide)⟩

/-- C2: for every submission with non-blank input, a successful query
leaves the message history equal to the prior history with exactly the
user message (content the literal input) and then the assistant message
(content the answer, sources the response sources, model the model_used
field) appended. -/
theorem C2_chat_success_appends_two (model t1 t2 : String)
    (r : QueryResponse) (s : ChatState) (h : jsTrim s.input ≠ "") :
    (handleSend model t1 t2 (.ok r) s).1.messages =
      s.messages ++
        [{ role := "user", content := s.input, sources := none,
           model := none, timestamp := t1 },
         { role := "assistant", content := r.answer,
           sources := some r.sources, model := some r.model_used,
           timestamp := t2 }] := by
  simp [handleSend, handleSendPre, handleSendPost, h]

/-- Witness for C2 at one concrete state and response. -/
theorem C2_chat_success_appends_two_witness :
    (jsTrim "hi" ≠ "") ∧
    (handleSend "gemini-1.5-flash" "t1" "t2"
        (.ok { answer := "ans", sources := [], model_used := "m" })
        { messages := [], input := "hi",
          selectedChapter := "All Chapters", isLoading := false }).1.messages =
      [] ++
        [{ role := "user", content := "hi", sources := none, model := none,
           timestamp := "t1" },
         { role := "assistant", content := "ans", sources := some [],
           model := some "m", timestamp := "t2" }] :=
  ⟨by decide,
   C2_chat_success_appends_two "gemini-1.5-flash" "t1" "t2"
     { answer := "ans", sources := [], model_used := "m" }
     { messages := [], input := "hi", selectedChapter := "All Chapters",
       isLoading := false } (by decide)⟩

/-- Helper: the size string of one mebibyte.  In double precision the
index is Math.floor(Math.log 1048576 / Math.log 1024) = 2 exactly and
1048576 / 1024 ^ 2 = 1 exactly, so the exact model coincides with the
source here. -/
theorem formatFileSize_one_mebibyte : formatFileSize 1048576 = "1 MB" := by
  have hlog : Nat.log 1024 1048576 = 2 :=
    Nat.log_eq_of_pow_le_of_lt_pow (by norm_num) (by norm_num)
  simp only [formatFileSize, renderHundredths, hlog]
  decide

/-- C3 counterexample: formatFileSize at 1048576 bytes returns the
string 1 MB and not 1.00 MB, because parseFloat of the toFixed form
drops the trailing zero decimals. -/
theorem C3_counterexample :
    formatFileSize 1048576 = "1 MB" ∧
    formatFileSize 1048576 ≠ "1.00 MB" := by
  refine ⟨formatFileSize_one_mebibyte, ?_⟩
  rw [formatFileSize_one_mebibyte]
  decide

/-- C3 amended: uploading one file named notes.pdf of 1048576 bytes
yields exactly the descriptor with name notes.pdf, size 1 MB and
processed status. -/
theorem C3_amended_descriptor :
    (onDrop [{ name := "notes.pdf", size := 1048576 }]
        (.ok { chapters := ["Chapter 1"] })
        { documents := [], chapters := [], isLoading := true }).1.documents =
      [{ name := "notes.pdf", size := "1 MB", status := "processed" }] := by
  have hdoc : docOfFile { name := "notes.pdf", size := 1048576 } =
      { name := "notes.pdf", size := "1 MB", status := "processed" } := by
    simp [docOfFile, formatFileSize_one_mebibyte]
  simp [onDrop, hdoc]

/-- C4: whenever handleSend issues a query request, its chapter_filter is
null exactly when the selected chapter is the All Chapters sentinel, and
any other selected chapter is passed verbatim. -/
theorem C4_chapter_filter (model t1 t2 : String)
    (outcome : Except Unit QueryResponse) (s : ChatState)
    (req : QueryRequest)
    (h : (handleSend model t1 t2 outcome s).2 = some req) :
    (req.chapter_filter = none ↔ s.selectedChapter = "All Chapters") ∧
    (s.selectedChapter ≠ "All Chapters" →
      req.chapter_filter = some s.selectedChapter) := by
  by_cases hb : jsTrim s.input = ""
  · simp [handleSend, handleSendPre, hb] at h
  · simp [handleSend, handleSendPre, hb] at h
    by_cases hc : s.selectedChapter = "All Chapters"
    · simp [← h, hc]
    · simp [← h, hc]

/-- Witness for C4 at one concrete submission with a named chapter. -/
theorem C4_chapter_filter_witness :
    (((handleSend "m" "t1" "t2" (.error ())
        { messages := [], input := "q", selectedChapter := "Chapter 2",
          isLoading := false }).2 =
      some { query := "q", chapter_filter := some "Chapter 2",
             model_name := "m" }) ∧
    ((some "Chapter 2" = (none : Option String) ↔
        "Chapter 2" = "All Chapters") ∧
      ("Chapter 2" ≠ "All Chapters" →
        some "Chapter 2" = some "Chapter 2"))) :=
  ⟨by decide,
   C4_chapter_filter "m" "t1" "t2" (.error ())
     { messages := [], input := "q", selectedChapter := "Chapter 2",
       isLoading := false }
     { query := "q", chapter_filter := some "Chapter 2",
       model_name := "m" } (by decide)⟩

/-- C5 counterexample: from the initial Quiz state, selecting a chapter,
typing 99 into the question-count input and clicking Generate issues a
generate-quiz request whose question count is 99, outside the range
[1,10]: the onChange handler stores parseInt of the raw value without
clamping. -/
theorem C5_counterexample :
    (quizRun ["Chapter 1"] initQuizState
      [.selectChapter "Chapter 1", .editNumQuestions "99",
       .clickGenerate (.error ())]).2 =
      [{ chapter := "Chapter 1", num_questions := some 99 }] ∧
    ¬ (1 ≤ (99 : Int) ∧ (99 : Int) ≤ 10) := by
  constructor
  · rfl
  · decide

/-- C5 amended: whenever a Quiz panel interaction issues a generate-quiz
request, a chapter is selected (the request chapter is the selected one
and not empty) and the question count is passed exactly as held in the
state, without clamping to [1,10]. -/
theorem C5_amended_guard (chapters : List String) (s : QuizState)
    (e : QuizEvent) (req : QuizRequest)
    (h : (quizStep chapters s e).2 = some req) :
    req.chapter ≠ "" ∧ req.chapter = s.selectedChapter ∧
    req.num_questions = s.numQuestions := by
  cases e with
  | selectChapter v =>
      by_cases hl : s.isLoading
      · simp [quizStep, hl] at h
      · simp [quizStep, hl] at h
        split at h <;> simp at h
  | editNumQuestions v =>
      by_cases hl : s.isLoading <;> simp [quizStep, hl] at h
  | clickGenerate outcome =>
      by_cases hd : generateButtonDisabled s = true
      · simp [quizStep, hd] at h
      · have hc : ¬ s.selectedChapter = "" := by
          simp [generateButtonDisabled] at hd
          exact hd.2
        cases outcome with
        | ok r =>
            simp [quizStep, hd, handleGenerateQuiz, hc] at h
            simp [← h, hc]
        | error u =>
            simp [quizStep, hd, handleGenerateQuiz, hc] at h
            simp [← h, hc]

/-- Witness for C5 amended at one concrete issued request. -/
theorem C5_amended_guard_witness :
    ((quizStep ["Chapter 1"]
        { selectedChapter := "Chapter 1", numQuestions := some 5,
          quiz := none, isLoading := false }
        (.clickGenerate (.error ()))).2 =
      some { chapter := "Chapter 1", num_questions := some 5 }) ∧
    (("Chapter 1" : String) ≠ "" ∧ ("Chapter 1" : String) = "Chapter 1" ∧
      (some 5 : Option Int) = some 5) :=
  ⟨by decide,
   C5_amended_guard ["Chapter 1"]
     { selectedChapter := "Chapter 1", numQuestions := some 5,
       quiz := none, isLoading := false }
     (.clickGenerate (.error ()))
     { chapter := "Chapter 1", num_questions := some 5 } (by decide)⟩

/-- C6: a confirmed Clear All Data resets both shared lists to empty
(counts exactly zero) when the backend call succeeds, and leaves both
lists exactly as they were when it fails. -/
theorem C6_clear_all (documents : List Doc) (chapters : List String) :
    handleClearAll true (.ok ()) documents chapters = (([], []), true) ∧
    handleClearAll true (.error ()) documents chapters =
      ((documents, chapters), true) := by
  simp [handleClearAll]

/-- C7: a submission with empty or whitespace-only input issues no
network request and leaves the whole chat state, message history
included, unchanged. -/
theorem C7_blank_input_noop (model t1 t2 : String)
    (outcome : Except Unit QueryResponse) (s : ChatState)
    (h : jsTrim s.input = "") :
    handleSend model t1 t2 outcome s = (s, none) := by
  simp [handleSend, handleSendPre, h]

/-- Witness for C7 at a whitespace-only concrete input. -/
theorem C7_blank_input_noop_witness :
    (jsTrim "   " = "") ∧
    handleSend "m" "t1" "t2" (.error ())
        { messages := [], input := "   ",
          selectedChapter := "All Chapters", isLoading := false } =
      ({ messages := [], input := "   ",
         selectedChapter := "All Chapters", isLoading := false }, none) :=
  ⟨by decide,
   C7_blank_input_noop "m" "t1" "t2" (.error ())
     { messages := [], input := "   ", selectedChapter := "All Chapters",
       isLoading := false } (by decide)⟩

/-- C8 counterexample: the handler submits on Enter with Ctrl held, an
event the claimed no-modifier condition excludes: the source inspects
only the Shift modifier. -/
theorem C8_counterexample :
    keyPressTriggersSend
      { key := "Enter", shiftKey := false, ctrlKey := true,
        altKey := false, metaKey := false } = true ∧
    keyTriggersSpec
      { key := "Enter", shiftKey := false, ctrlKey := true,
        altKey := false, metaKey := false } = false := by decide

/-- C8 amended: a keypress triggers submission exactly when the key is
Enter and Shift is not held; in particular Enter with Shift held never
submits.  The Ctrl, Alt and Meta modifiers are not inspected. -/
theorem C8_amended_enter_shift (e : KeyEvent) :
    (keyPressTriggersSend e = true ↔
      (e.key = "Enter" ∧ e.shiftKey = false)) ∧
    keyPressTriggersSend { e with shiftKey := true } = false := by
  constructor
  · simp [keyPressTriggersSend]
  · simp [keyPressTriggersSend]

/-- C9: for a non-blank submission the input field is already the empty
string in the intermediate state reached before the query resolves, the
user message having been appended, and the input stays empty when the
query fails. -/
theorem C9_input_cleared (model t1 t2 : String) (s : ChatState)
    (h : jsTrim s.input ≠ "") :
    (handleSendPre model t1 s).state.input = "" ∧
    (handleSendPre model t1 s).state.messages =
      s.messages ++
        [{ role := "user", content := s.input, sources := none,
           model := none, timestamp := t1 }] ∧
    (handleSend model t1 t2 (.error ()) s).1.input = "" := by
  simp [handleSend, handleSendPre, handleSendPost, h]

/-- Witness for C9 at one concrete non-blank input. -/
theorem C9_input_cleared_witness :
    (jsTrim "hello" ≠ "") ∧
    ((handleSendPre "m" "t1"
        { messages := [], input := "hello",
          selectedChapter := "All Chapters", isLoading := false }).state.input =
      "" ∧
    (handleSendPre "m" "t1"
        { messages := [], input := "hello",
          selectedChapter := "All Chapters", isLoading := false }).state.messages =
      [] ++
        [{ role := "user", content := "hello", sources := none,
           model := none, timestamp := "t1" }] ∧
    (handleSend "m" "t1" "t2" (.error ())
        { messages := [], input := "hello",
          selectedChapter := "All Chapters", isLoading := false }).1.input =
      "") :=
  ⟨by decide,
   C9_input_cleared "m" "t1" "t2"
     { messages := [], input := "hello", selectedChapter := "All Chapters",
       isLoading := false } (by decide)⟩

/-- C10: a click on the Clear All Data button issues the clear call only
when no clear request is in flight and the document list is non-empty:
the disabled button never reaches the handler. -/
theorem C10_clear_guard (confirmed : Bool) (outcome : Except Unit Unit)
    (isLoading : Bool) (documents : List Doc) (chapters : List String)
    (h : (clickClearAll confirmed outcome isLoading documents
      chapters).2 = true) :
    isLoading = false ∧ documents ≠ [] := by
  cases hB : clearButtonDisabled isLoading documents with
  | true => simp [clickClearAll, hB] at h
  | false =>
      simp [clearButtonDisabled] at hB
      refine ⟨hB.1, ?_⟩
      intro hnil
      simp [hnil] at hB

/-- Witness for C10 at one concrete enabled click. -/
theorem C10_clear_guard_witness :
    ((clickClearAll true (.ok ()) false
        [{ name := "notes.pdf", size := "1 MB", status := "processed" }]
        ["Chapter 1"]).2 = true) ∧
    ((false : Bool) = false ∧
      [({ name := "notes.pdf", size := "1 MB",
          status := "processed" } : Doc)] ≠ []) :=
  ⟨by decide,
   C10_clear_guard true (.ok ()) false
     [{ name := "notes.pdf", size := "1 MB", status := "processed" }]
     ["Chapter 1"] (by decide)⟩

end StudyMind
